import Mathlib

/-!
# Verification of `whereyoufrom` (src/main.rs, src/args.rs, src/server.rs)

A shallow embedding of the `whereyoufrom` network responder in Lean 4, and
theorems checking its natural-language specification against the code.

Modelling conventions:
* Byte buffers (`[u8; N]`) are `List Nat` of byte values; ASCII text is turned
  into bytes with `strBytes` (`String.data.map Char.toNat`, which agrees with
  UTF-8 on ASCII).
* The `u64` counters wrap at `2 ^ 64`, as Rust release-mode `+=` does.
* The results of `accept().await` / `recv_from().await` are an input trace
  (a list of events), and each server loop is a function from that trace and
  its two counters to the list of responses it produces, plus a flag saying
  whether the loop exited via the consecutive-error `break`.
* OS address resolution (`to_socket_addrs`) is abstracted by a `Resolver`
  parameter of the argument parser.
-/

namespace WhereYouFrom

/-- `UDP_BUF_SIZE` from src/server.rs line 14. -/
def UDP_BUF_SIZE : Nat := 1400

/-- `DEFAULT_PORT` from src/args.rs line 7. -/
def DEFAULT_PORT : Nat := 6969

/-- Bytes of an ASCII string (agrees with Rust's UTF-8 bytes on ASCII text). -/
def strBytes (s : String) : List Nat := s.data.map Char.toNat

/-- Writing `data` into a fixed-size buffer `buf` through an
`std::io::Cursor<&mut [u8]>` starting at position 0: as many bytes as fit are
copied to the front, the rest of the buffer keeps its old contents, and the
final cursor position is the number of bytes written
(`min data.length buf.length`).  This models the `write!(cursor, ...)` calls in
src/server.rs lines 143-144 and 189-190, whose `Result` is discarded with
`let _ =`, so truncation is silent. -/
def cursorWrite (buf data : List Nat) : List Nat × Nat :=
  (data.take buf.length ++ buf.drop (min data.length buf.length),
   min data.length buf.length)

/-- Display of a `std::net::SocketAddrV4`: `"{a}.{b}.{c}.{d}:{port}"`. -/
def sockAddrV4Display (a b c d port : Nat) : String :=
  Nat.repr a ++ "." ++ Nat.repr b ++ "." ++ Nat.repr c ++ "." ++ Nat.repr d
    ++ ":" ++ Nat.repr port

/-- The TCP response text built at src/server.rs line 144:
`"you: {remote_address} | connection_number: {counter}"`.
The remote address is kept as its rendered `Display` string. -/
def tcpResponseText (remote : String) (counter : Nat) : String :=
  "you: " ++ remote ++ " | connection_number: " ++ Nat.repr counter

/-- The UDP reply text built at src/server.rs line 190:
`"you: {remote_address} | bytes: {buf_len} | packet_number: {counter}"`. -/
def udpResponseText (remote : String) (bufLen counter : Nat) : String :=
  "you: " ++ remote ++ " | bytes: " ++ Nat.repr bufLen
    ++ " | packet_number: " ++ Nat.repr counter

/-- The 256-byte TCP response buffer: a zeroed `[0u8; 256]` with the response
text written through a cursor (src/server.rs lines 142-144). -/
def tcpResponseBuffer (remote : String) (counter : Nat) : List Nat :=
  (cursorWrite (List.replicate 256 0) (strBytes (tcpResponseText remote counter))).1

/-- One action performed on an accepted TCP stream by the per-connection task
(src/server.rs lines 141-159).  There is no read action: the task never reads
from the client. -/
inductive TcpAction where
  | write (bytes : List Nat)
  | shutdownWrite
deriving DecidableEq, Repr

/-- The per-connection TCP task (src/server.rs lines 141-159): write the whole
256-byte buffer with `write_all(&buf)`, then `stream.shutdown()` (which
half-closes the write side).  Write failures are only logged; shutdown happens
on both paths. -/
def handleTcpConnection (remote : String) (counter : Nat) : List TcpAction :=
  [TcpAction.write (tcpResponseBuffer remote counter), TcpAction.shutdownWrite]

/-- Outcome of one `listener.accept().await` in the TCP loop: a connection
from a remote peer (kept as its rendered address string), or an error. -/
inductive TcpEvent where
  | ok (remote : String)
  | err
deriving DecidableEq, Repr

/-- A response dispatched by the TCP accept loop: which peer, and the value of
the connection counter passed to the spawned handler task. -/
structure TcpResponse where
  remote : String
  number : Nat
deriving DecidableEq, Repr

/-- The TCP accept loop of `run_tcp_server` (src/server.rs lines 123-160) run
over a trace of accept outcomes.  Each iteration first increments `counter`
(a wrapping `u64`).  A successful accept dispatches a response and does NOT
touch `error_counter`; a failed accept increments `error_counter` and breaks
the loop once it reaches 10.  Returns the dispatched responses and whether the
loop exited via the error threshold within the trace. -/
def runTcpLoop : List TcpEvent → Nat → Nat → List TcpResponse × Bool
  | [], _, _ => ([], false)
  | e :: rest, counter, errorCounter =>
    let counter' := (counter + 1) % 2 ^ 64
    match e with
    | .ok remote =>
      let (resps, closed) := runTcpLoop rest counter' errorCounter
      (⟨remote, counter'⟩ :: resps, closed)
    | .err =>
      if errorCounter + 1 ≥ 10 then ([], true)
      else runTcpLoop rest counter' (errorCounter + 1)

/-- `run_tcp_server`'s loop from its initial state `counter = 0`,
`error_counter = 0` (src/server.rs lines 123-124). -/
def run_tcp_server (events : List TcpEvent) : List TcpResponse × Bool :=
  runTcpLoop events 0 0

/-- Outcome of one `socket.recv_from(&mut buf).await` in the UDP loop: a
datagram of `bytes` bytes from a remote peer, or an error. -/
inductive UdpEvent where
  | ok (remote : String) (bytes : Nat)
  | err
deriving DecidableEq, Repr

/-- A reply sent by the UDP loop: the destination peer (the datagram's
sender), the received byte count it reports, and the packet counter value
used.  The wire payload is `udpReplyPayload` applied to these fields. -/
structure UdpReply where
  remote : String
  bytes : Nat
  number : Nat
deriving DecidableEq, Repr

/-- The payload of one UDP reply (src/server.rs lines 189-193): the reply text
is written into the 1400-byte receive buffer through a cursor, and
`&buf[..len]` with `len = cursor.position()` is sent — exactly the bytes just
written, truncated at the buffer capacity, with no padding. -/
def udpReplyPayload (remote : String) (bufLen counter : Nat) : List Nat :=
  (strBytes (udpResponseText remote bufLen counter)).take UDP_BUF_SIZE

/-- The UDP receive loop of `run_udp_server` (src/server.rs lines 171-203) run
over a trace of receive outcomes.  Each iteration first increments `counter`
(a wrapping `u64`).  A successful receive resets `error_counter` to 0 and
sends one reply to the sender; a failed receive increments `error_counter` and
breaks the loop once it reaches 10. -/
def runUdpLoop : List UdpEvent → Nat → Nat → List UdpReply × Bool
  | [], _, _ => ([], false)
  | e :: rest, counter, errorCounter =>
    let counter' := (counter + 1) % 2 ^ 64
    match e with
    | .ok remote bytes =>
      let (reps, closed) := runUdpLoop rest counter' 0
      (⟨remote, bytes, counter'⟩ :: reps, closed)
    | .err =>
      if errorCounter + 1 ≥ 10 then ([], true)
      else runUdpLoop rest counter' (errorCounter + 1)

/-- `run_udp_server`'s loop from its initial state `counter = 0`,
`error_counter = 0` (src/server.rs lines 168-169). -/
def run_udp_server (events : List UdpEvent) : List UdpReply × Bool :=
  runUdpLoop events 0 0

/-- Number of error events in a TCP trace. -/
def tcpErrCount : List TcpEvent → Nat
  | [] => 0
  | .err :: rest => tcpErrCount rest + 1
  | .ok _ :: rest => tcpErrCount rest

/-- Number of error events in a UDP trace. -/
def udpErrCount : List UdpEvent → Nat
  | [] => 0
  | .err :: rest => udpErrCount rest + 1
  | .ok _ _ :: rest => udpErrCount rest

/-- Length of the leading run of error events in a TCP trace. -/
def leadingErrs : List TcpEvent → Nat
  | .err :: rest => leadingErrs rest + 1
  | _ => 0

/-- Length of the longest run of consecutive error events in a TCP trace. -/
def maxErrRun (events : List TcpEvent) : Nat :=
  (events.tails.map leadingErrs).foldr max 0

/-- Indices (starting at `start`) of the successful-accept events of a TCP
trace. -/
def okIndicesFrom : List TcpEvent → Nat → List Nat
  | [], _ => []
  | .ok _ :: rest, i => i :: okIndicesFrom rest (i + 1)
  | .err :: rest, i => okIndicesFrom rest (i + 1)

/-- Indices (starting at `start`) of the successful-receive events of a UDP
trace. -/
def udpOkIndicesFrom : List UdpEvent → Nat → List Nat
  | [], _ => []
  | .ok _ _ :: rest, i => i :: udpOkIndicesFrom rest (i + 1)
  | .err :: rest, i => udpOkIndicesFrom rest (i + 1)

/-- The (sender, byte count) pairs of the successfully received datagrams of a
UDP trace, in order. -/
def okDatagrams (events : List UdpEvent) : List (String × Nat) :=
  events.filterMap fun e =>
    match e with
    | .ok remote bytes => some (remote, bytes)
    | .err => none

/-! ## Argument parsing (src/args.rs) -/

/-- A socket address (`std::net::SocketAddr`): either V4 with four octets and
a port, or V6 with eight 16-bit segments, a port, flowinfo and scope id. -/
inductive SockAddr where
  | v4 (a b c d : Nat) (port : Nat)
  | v6 (s1 s2 s3 s4 s5 s6 s7 s8 : Nat) (port flowinfo scope : Nat)
deriving DecidableEq, Repr

/-- `SocketAddr::V6(SocketAddrV6::new(Ipv6Addr::UNSPECIFIED, DEFAULT_PORT, 0, 0))`
(src/args.rs lines 176 and 185). -/
def defaultAddrV6 : SockAddr := .v6 0 0 0 0 0 0 0 0 DEFAULT_PORT 0 0

/-- `SocketAddr::V4(SocketAddrV4::new(Ipv4Addr::UNSPECIFIED, DEFAULT_PORT))`
(src/args.rs lines 179 and 188). -/
def defaultAddrV4 : SockAddr := .v4 0 0 0 0 DEFAULT_PORT

/-- `StartupArguments` from src/args.rs lines 51-57. -/
structure StartupArguments where
  verbose : Bool
  silent : Bool
  tcp_addresses : List SockAddr
  udp_addresses : List SockAddr
deriving DecidableEq, Repr

/-- `StartupArguments::empty` (src/args.rs lines 60-67). -/
def StartupArguments.empty : StartupArguments :=
  ⟨false, false, [], []⟩

/-- `ArgumentsRequest` from src/args.rs lines 44-49. -/
inductive ArgumentsRequest where
  | help
  | version
  | run (args : StartupArguments)
deriving DecidableEq, Repr

/-- `SocketErrorType` from src/args.rs lines 89-93. -/
inductive SocketErrorType where
  | unexpectedEnd (arg : String)
  | invalidSocketAddress (arg addr : String)
deriving DecidableEq, Repr

/-- `ArgumentsError` from src/args.rs lines 70-76. -/
inductive ArgumentsError where
  | unknownArgument (arg : String)
  | tcpListenError (e : SocketErrorType)
  | udpListenError (e : SocketErrorType)
  | noSocketsSpecified
deriving DecidableEq, Repr

/-- Outcome of `str::to_socket_addrs()` on one string: an address list, an
error of kind `ErrorKind::InvalidInput`, or any other error. -/
inductive ResolveResult where
  | ok (addrs : List SockAddr)
  | invalidInput
  | otherError
deriving DecidableEq, Repr

/-- OS name resolution, abstracted: what `to_socket_addrs` returns for each
input string. -/
def Resolver := String → ResolveResult

/-- ASCII-lowercase one character, as `u8::to_ascii_lowercase` does. -/
def asciiLower (c : Char) : Char :=
  if 'A' ≤ c ∧ c ≤ 'Z' then Char.ofNat (c.toNat + 32) else c

/-- Rust's `str::eq_ignore_ascii_case`. -/
def eqIgnoreAsciiCase (a b : String) : Bool :=
  a.data.map asciiLower == b.data.map asciiLower

/-- Pushing resolved addresses into the result vector, skipping duplicates
(src/args.rs lines 124-128). -/
def pushDedup (vec : List SockAddr) (addrs : List SockAddr) : List SockAddr :=
  addrs.foldl (fun v a => if a ∈ v then v else v ++ [a]) vec

/-- `parse_socket_arg` (src/args.rs lines 104-131): resolve the option's
argument; on an `InvalidInput` error retry with `":{default_port}"` appended;
push the resolved addresses into the vector, deduplicated. -/
def parse_socket_arg (resolver : Resolver) (result_vec : List SockAddr)
    (arg : String) (maybe_arg2 : Option String) (default_port : Nat) :
    Except SocketErrorType (List SockAddr) :=
  match maybe_arg2 with
  | none => .error (.unexpectedEnd arg)
  | some arg2 =>
    match resolver arg2 with
    | .ok iter => .ok (pushDedup result_vec iter)
    | .invalidInput =>
      match resolver (arg2 ++ ":" ++ Nat.repr default_port) with
      | .ok iter => .ok (pushDedup result_vec iter)
      | _ => .error (.invalidSocketAddress arg arg2)
    | .otherError => .error (.invalidSocketAddress arg arg2)

/-- Does `arg` select the `-h`/`--help` branch (src/args.rs line 148)? -/
def isHelpArg (arg : String) : Bool :=
  arg == "-h" || eqIgnoreAsciiCase arg "--help"

/-- Does `arg` select the `-V`/`--version` branch (src/args.rs line 150)? -/
def isVersionArg (arg : String) : Bool :=
  arg == "-V" || eqIgnoreAsciiCase arg "--version"

/-- Does `arg` select the `-v`/`--verbose` branch (src/args.rs line 152)? -/
def isVerboseArg (arg : String) : Bool :=
  arg == "-v" || eqIgnoreAsciiCase arg "--verbose"

/-- Does `arg` select the `-s`/`--silent` branch (src/args.rs line 154)? -/
def isSilentArg (arg : String) : Bool :=
  arg == "-s" || eqIgnoreAsciiCase arg "--silent"

/-- Does `arg` select the `-t`/`--listen-tcp` branch (src/args.rs line 156)? -/
def isTcpArg (arg : String) : Bool :=
  arg == "-t" || eqIgnoreAsciiCase arg "--listen-tcp"

/-- Does `arg` select the `-u`/`--listen-udp` branch (src/args.rs line 162)? -/
def isUdpArg (arg : String) : Bool :=
  arg == "-u" || eqIgnoreAsciiCase arg "--listen-udp"

/-- Drop the leading whitespace characters of a character list. -/
def dropWhileWhitespace : List Char → List Char
  | [] => []
  | c :: rest => if c.isWhitespace then dropWhileWhitespace rest else c :: rest

/-- Rust's `str::trim`: the string with leading and trailing whitespace
stripped (on the ASCII arguments involved here, Unicode `White_Space` and
`Char.isWhitespace` agree). -/
def strTrim (s : String) : String :=
  ⟨((dropWhileWhitespace ((dropWhileWhitespace s.data).reverse)).reverse)⟩

/-- Is this option argument the disable sentinel
(`arg2.as_deref().is_some_and(|s| s.trim() == "-")`, src/args.rs line 159)? -/
def isDisableSentinel (arg2 : String) : Bool :=
  strTrim arg2 == "-"

/-- The `while let Some(arg) = args.next()` loop of `parse_arguments`
(src/args.rs lines 145-195) plus the post-loop default insertion and the
empty-check, over the remaining argument list, the accumulated
`StartupArguments`, and the `tcp_specified`/`udp_specified` flags. -/
def parseLoop (resolver : Resolver) :
    List String → StartupArguments → Bool → Bool →
    Except ArgumentsError ArgumentsRequest
  | [], result, tcp_specified, udp_specified =>
    let result :=
      if tcp_specified then result
      else { result with
             tcp_addresses := result.tcp_addresses ++ [defaultAddrV6, defaultAddrV4] }
    let result :=
      if udp_specified then result
      else { result with
             udp_addresses := result.udp_addresses ++ [defaultAddrV6, defaultAddrV4] }
    if result.udp_addresses.isEmpty && result.tcp_addresses.isEmpty then
      .error .noSocketsSpecified
    else
      .ok (.run result)
  | arg :: rest, result, tcp_specified, udp_specified =>
    if arg.isEmpty then parseLoop resolver rest result tcp_specified udp_specified
    else if isHelpArg arg then .ok .help
    else if isVersionArg arg then .ok .version
    else if isVerboseArg arg then
      parseLoop resolver rest { result with verbose := true } tcp_specified udp_specified
    else if isSilentArg arg then
      parseLoop resolver rest { result with silent := true } tcp_specified udp_specified
    else if isTcpArg arg then
      match rest with
      | [] =>
        match parse_socket_arg resolver result.tcp_addresses arg none DEFAULT_PORT with
        | .error e => .error (.tcpListenError e)
        | .ok v => parseLoop resolver [] { result with tcp_addresses := v } true udp_specified
      | arg2 :: rest2 =>
        if isDisableSentinel arg2 then
          parseLoop resolver rest2 result true udp_specified
        else
          match parse_socket_arg resolver result.tcp_addresses arg (some arg2) DEFAULT_PORT with
          | .error e => .error (.tcpListenError e)
          | .ok v => parseLoop resolver rest2 { result with tcp_addresses := v } true udp_specified
    else if isUdpArg arg then
      match rest with
      | [] =>
        match parse_socket_arg resolver result.udp_addresses arg none DEFAULT_PORT with
        | .error e => .error (.udpListenError e)
        | .ok v => parseLoop resolver [] { result with udp_addresses := v } tcp_specified true
      | arg2 :: rest2 =>
        if isDisableSentinel arg2 then
          parseLoop resolver rest2 result tcp_specified true
        else
          match parse_socket_arg resolver result.udp_addresses arg (some arg2) DEFAULT_PORT with
          | .error e => .error (.udpListenError e)
          | .ok v => parseLoop resolver rest2 { result with udp_addresses := v } tcp_specified true
    else .error (.unknownArgument arg)

/-- `parse_arguments` (src/args.rs lines 133-196): skip the program name, then
run the argument loop from the empty `StartupArguments` with both
`*_specified` flags false. -/
def parse_arguments (resolver : Resolver) (argv : List String) :
    Except ArgumentsError ArgumentsRequest :=
  parseLoop resolver (argv.drop 1) StartupArguments.empty false false

/-! ## Server startup (src/server.rs, `run_server` and the binders) -/

/-- `bind_tcp_listeners` / `bind_udp_sockets` (src/server.rs lines 54-118):
each address is tried in order; any failure (bind, set_nonblocking, or the
std-to-tokio conversion, abstracted into one success predicate `ok`) is
reported and the address skipped, the rest continue.  The result is the list
of successfully bound addresses. -/
def bindSockets (ok : SockAddr → Bool) (addresses : List SockAddr) : List SockAddr :=
  addresses.filter ok

/-- What `run_server` does after binding: abort the process with `exit(1)`, or
keep running with the given bound sockets, possibly after per-protocol
warnings. -/
inductive ServerStart where
  | abort
  | running (tcpWarning udpWarning : Bool)
      (tcpListeners udpSockets : List SockAddr)
deriving DecidableEq, Repr

/-- The startup decision of `run_server` (src/server.rs lines 16-31),
parameterized by which addresses the OS lets each protocol bind: if no TCP
listener and no UDP socket was bound, print an error and `exit(1)`; otherwise
emit a warning for any protocol that had configured addresses but bound none,
and keep running with the bound sockets. -/
def run_server (okTcp okUdp : SockAddr → Bool) (startup_args : StartupArguments) :
    ServerStart :=
  let tcp_listeners := bindSockets okTcp startup_args.tcp_addresses
  let udp_sockets := bindSockets okUdp startup_args.udp_addresses
  if tcp_listeners.isEmpty && udp_sockets.isEmpty then
    .abort
  else
    .running (!startup_args.tcp_addresses.isEmpty && tcp_listeners.isEmpty)
      (!startup_args.udp_addresses.isEmpty && udp_sockets.isEmpty)
      tcp_listeners udp_sockets

/-- A concrete resolver used in examples: `"1.2.3.4"` alone has no port, so
`to_socket_addrs` fails with `InvalidInput`, while `"1.2.3.4:6969"` resolves
to the single address `1.2.3.4:6969`; everything else fails. -/
def exampleResolver : Resolver := fun s =>
  if s == "1.2.3.4:6969" then .ok [.v4 1 2 3 4 6969]
  else if s == "1.2.3.4" then .invalidInput
  else .otherError

/-! ## Helper lemmas -/

/-- The TCP loop closes within a trace exactly when the cumulative number of
accept errors reaches 10, starting from error counter `e`: successes never
reset the counter in `run_tcp_server`. -/
theorem runTcpLoop_closed_iff (events : List TcpEvent) :
    ∀ c e, e < 10 →
      ((runTcpLoop events c e).2 = true ↔ 10 ≤ e + tcpErrCount events) := by
  induction events with
  | nil =>
    intro c e he
    simp [runTcpLoop, tcpErrCount]
    omega
  | cons ev rest ih =>
    intro c e he
    cases ev with
    | ok r =>
      simpa only [runTcpLoop, tcpErrCount] using ih ((c + 1) % 2 ^ 64) e he
    | err =>
      by_cases h10 : e + 1 ≥ 10
      · simp [runTcpLoop, tcpErrCount, h10]
        omega
      · simp only [runTcpLoop, tcpErrCount, if_neg h10]
        rw [ih ((c + 1) % 2 ^ 64) (e + 1) (by omega)]
        omega

/-- Shifting the base index of `okIndicesFrom` shifts every index. -/
theorem okIndicesFrom_succ (events : List TcpEvent) :
    ∀ i, okIndicesFrom events (i + 1) = (okIndicesFrom events i).map (· + 1) := by
  induction events with
  | nil => intro i; rfl
  | cons ev rest ih =>
    intro i
    cases ev with
    | ok r => simp [okIndicesFrom, ih (i + 1)]
    | err => simp [okIndicesFrom, ih (i + 1)]

/-- Every index produced by `okIndicesFrom events i` is at least `i`. -/
theorem okIndicesFrom_le (events : List TcpEvent) :
    ∀ i j, j ∈ okIndicesFrom events i → i ≤ j := by
  induction events with
  | nil => intro i j h; simp [okIndicesFrom] at h
  | cons ev rest ih =>
    intro i j h
    cases ev with
    | ok r =>
      rcases List.mem_cons.mp h with h' | h'
      · omega
      · have := ih (i + 1) j h'; omega
    | err =>
      have := ih (i + 1) j h; omega

/-- Every index produced by `okIndicesFrom events i` is below `i` plus the
trace length. -/
theorem okIndicesFrom_lt (events : List TcpEvent) :
    ∀ i j, j ∈ okIndicesFrom events i → j < i + events.length := by
  induction events with
  | nil => intro i j h; simp [okIndicesFrom] at h
  | cons ev rest ih =>
    intro i j h
    cases ev with
    | ok r =>
      rcases List.mem_cons.mp h with h' | h'
      · simp [h']
      · have := ih (i + 1) j h'; simp only [List.length_cons]; omega
    | err =>
      have := ih (i + 1) j h; simp only [List.length_cons]; omega

/-- The indices of successful accepts are strictly increasing. -/
theorem okIndicesFrom_pairwise (events : List TcpEvent) :
    ∀ i, List.Pairwise (· < ·) (okIndicesFrom events i) := by
  induction events with
  | nil => intro i; simp [okIndicesFrom]
  | cons ev rest ih =>
    intro i
    cases ev with
    | ok r =>
      refine List.Pairwise.cons ?_ (ih (i + 1))
      intro j hj
      have := okIndicesFrom_le rest (i + 1) j hj
      omega
    | err => exact ih (i + 1)

/-- Advancing a wrapped `u64` counter and then adding commutes with adding
first and wrapping once. -/
theorem counterShift (c i : Nat) :
    ((c + 1) % 2 ^ 64 + i + 1) % 2 ^ 64 = (c + (i + 1) + 1) % 2 ^ 64 := by
  rw [Nat.add_assoc ((c + 1) % 2 ^ 64) i 1, Nat.mod_add_mod]
  congr 1
  omega

/-- The connection numbers dispatched by the TCP loop are the (1-based, then
wrapped at `2 ^ 64`) iteration indices of the successful accepts, offset by
the initial counter `c`, whenever the trace's total error count stays below
the threshold. -/
theorem runTcpLoop_numbers (events : List TcpEvent) :
    ∀ c e, e + tcpErrCount events < 10 →
      (runTcpLoop events c e).1.map TcpResponse.number
        = (okIndicesFrom events 0).map (fun i => (c + i + 1) % 2 ^ 64) := by
  induction events with
  | nil => intro c e _; rfl
  | cons ev rest ih =>
    intro c e he
    cases ev with
    | ok r =>
      have hrest : e + tcpErrCount rest < 10 := by
        simpa [tcpErrCount] using he
      simp only [runTcpLoop, okIndicesFrom, okIndicesFrom_succ rest 0, List.map_cons,
        List.map_map]
      rw [ih ((c + 1) % 2 ^ 64) e hrest]
      refine congrArg₂ _ rfl ?_
      refine List.map_congr_left fun i _ => ?_
      exact counterShift c i
    | err =>
      have hrest : (e + 1) + tcpErrCount rest < 10 := by
        simp only [tcpErrCount] at he; omega
      simp only [runTcpLoop, okIndicesFrom, okIndicesFrom_succ rest 0, List.map_map,
        if_neg (by omega : ¬ e + 1 ≥ 10)]
      rw [ih ((c + 1) % 2 ^ 64) (e + 1) hrest]
      refine List.map_congr_left fun i _ => ?_
      exact counterShift c i

/-- Shifting the base index of `udpOkIndicesFrom` shifts every index. -/
theorem udpOkIndicesFrom_succ (events : List UdpEvent) :
    ∀ i, udpOkIndicesFrom events (i + 1) = (udpOkIndicesFrom events i).map (· + 1) := by
  induction events with
  | nil => intro i; rfl
  | cons ev rest ih =>
    intro i
    cases ev with
    | ok r b => simp [udpOkIndicesFrom, ih (i + 1)]
    | err => simp [udpOkIndicesFrom, ih (i + 1)]

/-- Every index produced by `udpOkIndicesFrom events i` is below `i` plus the
trace length. -/
theorem udpOkIndicesFrom_lt (events : List UdpEvent) :
    ∀ i j, j ∈ udpOkIndicesFrom events i → j < i + events.length := by
  induction events with
  | nil => intro i j h; simp [udpOkIndicesFrom] at h
  | cons ev rest ih =>
    intro i j h
    cases ev with
    | ok r b =>
      rcases List.mem_cons.mp h with h' | h'
      · simp [h']
      · have := ih (i + 1) j h'; simp only [List.length_cons]; omega
    | err =>
      have := ih (i + 1) j h; simp only [List.length_cons]; omega

/-- On an error-free UDP trace every event is a successful receive, so the
success indices are all of `i, i+1, ..., i + length - 1`. -/
theorem udpOkIndicesFrom_noerr (events : List UdpEvent) :
    ∀ i, (∀ ev ∈ events, ev ≠ UdpEvent.err) →
      udpOkIndicesFrom events i = List.range' i events.length := by
  induction events with
  | nil => intro i _; rfl
  | cons ev rest ih =>
    intro i hne
    cases ev with
    | err => exact absurd rfl (hne .err (List.mem_cons_self _ _))
    | ok r b =>
      have hrest : ∀ ev ∈ rest, ev ≠ UdpEvent.err :=
        fun ev h => hne ev (List.mem_cons_of_mem _ h)
      simp only [udpOkIndicesFrom, List.length_cons, List.range'_succ]
      rw [ih (i + 1) hrest]

/-- The packet numbers emitted by the UDP loop are the (1-based, then wrapped
at `2 ^ 64`) iteration indices of the successful receives, offset by the
initial counter `c`, whenever the trace's total error count stays below the
threshold — receive errors consume an index just like successes do. -/
theorem runUdpLoop_numbers (events : List UdpEvent) :
    ∀ c e, e + udpErrCount events < 10 →
      (runUdpLoop events c e).1.map UdpReply.number
        = (udpOkIndicesFrom events 0).map (fun i => (c + i + 1) % 2 ^ 64) := by
  induction events with
  | nil => intro c e _; rfl
  | cons ev rest ih =>
    intro c e he
    cases ev with
    | ok r b =>
      have hrest : 0 + udpErrCount rest < 10 := by
        simp only [udpErrCount] at he; omega
      simp only [runUdpLoop, udpOkIndicesFrom, udpOkIndicesFrom_succ rest 0,
        List.map_cons, List.map_map]
      rw [ih ((c + 1) % 2 ^ 64) 0 hrest]
      refine congrArg₂ _ rfl ?_
      refine List.map_congr_left fun i _ => ?_
      exact counterShift c i
    | err =>
      have hrest : (e + 1) + udpErrCount rest < 10 := by
        simp only [udpErrCount] at he; omega
      simp only [runUdpLoop, udpOkIndicesFrom, udpOkIndicesFrom_succ rest 0,
        List.map_map, if_neg (by omega : ¬ e + 1 ≥ 10)]
      rw [ih ((c + 1) % 2 ^ 64) (e + 1) hrest]
      refine List.map_congr_left fun i _ => ?_
      exact counterShift c i

/-- Each reply of the UDP loop answers exactly one successfully received
datagram — same sender, same byte count, in receipt order — whenever the
trace's error count stays below the threshold. -/
theorem runUdpLoop_replies (events : List UdpEvent) :
    ∀ c e, e + udpErrCount events < 10 →
      (runUdpLoop events c e).1.map (fun rep => (rep.remote, rep.bytes))
        = okDatagrams events := by
  induction events with
  | nil => intro c e _; rfl
  | cons ev rest ih =>
    intro c e he
    cases ev with
    | ok r b =>
      have hrest : 0 + udpErrCount rest < 10 := by
        simp only [udpErrCount] at he; omega
      simp only [runUdpLoop, okDatagrams, List.filterMap_cons, List.map_cons]
      exact congrArg (List.cons (r, b)) (ih ((c + 1) % 2 ^ 64) 0 hrest)
    | err =>
      have hrest : (e + 1) + udpErrCount rest < 10 := by
        simp only [udpErrCount] at he; omega
      simp only [runUdpLoop, okDatagrams, List.filterMap_cons,
        if_neg (by omega : ¬ e + 1 ≥ 10)]
      exact ih ((c + 1) % 2 ^ 64) (e + 1) hrest

/-- A cursor write never changes the size of the underlying fixed buffer. -/
theorem cursorWrite_fst_length (buf data : List Nat) :
    (cursorWrite buf data).1.length = buf.length := by
  simp only [cursorWrite, List.length_append, List.length_take, List.length_drop]
  omega

/-- What lies before the final cursor position is exactly the written data,
truncated at the buffer's capacity. -/
theorem cursorWrite_prefix (buf data : List Nat) :
    (cursorWrite buf data).1.take (min data.length buf.length)
      = data.take buf.length := by
  have h : min data.length buf.length = (data.take buf.length).length := by
    rw [List.length_take]; omega
  simp only [cursorWrite, h]
  exact List.take_left _ _

/-- When the data fits, a cursor write lays it down at the front and keeps the
buffer's old tail. -/
theorem cursorWrite_of_fits (buf data : List Nat) (h : data.length ≤ buf.length) :
    (cursorWrite buf data).1 = data ++ buf.drop data.length := by
  simp only [cursorWrite]
  rw [List.take_of_length_le h, Nat.min_eq_left h]

/-- When the argument loop ends with no arguments left and succeeds, the final
address lists are the accumulated ones, with the two defaults appended for
each protocol whose `*_specified` flag is still false. -/
theorem parseLoop_nil_run (resolver : Resolver) (result : StartupArguments)
    (tcpS udpS : Bool) (r : StartupArguments)
    (hp : parseLoop resolver [] result tcpS udpS
      = Except.ok (ArgumentsRequest.run r)) :
    r.tcp_addresses
      = (if tcpS then result.tcp_addresses
         else result.tcp_addresses ++ [defaultAddrV6, defaultAddrV4])
    ∧ r.udp_addresses
      = (if udpS then result.udp_addresses
         else result.udp_addresses ++ [defaultAddrV6, defaultAddrV4]) := by
  cases tcpS <;> cases udpS <;>
    · simp only [parseLoop, if_true, if_false, Bool.false_eq_true] at hp
      split at hp
      · cases hp
      · cases hp
        constructor <;> simp

/-- If the argument loop, started with `tcp_specified = false`, succeeds in a
run request without ever seeing a `-t`/`--listen-tcp` token, the final TCP
address list is the accumulated one with the two defaults appended. -/
theorem parseLoop_tcp_inv (resolver : Resolver) :
    ∀ (n : Nat) (args : List String), args.length ≤ n →
      ∀ (result : StartupArguments) (udpS : Bool) (r : StartupArguments),
        (∀ a ∈ args, isTcpArg a = false) →
        parseLoop resolver args result false udpS
          = Except.ok (ArgumentsRequest.run r) →
        r.tcp_addresses = result.tcp_addresses ++ [defaultAddrV6, defaultAddrV4] := by
  intro n
  induction n with
  | zero =>
    intro args hlen result udpS r _ hp
    have hargs : args = [] := List.eq_nil_of_length_eq_zero (Nat.le_zero.mp hlen)
    subst hargs
    simpa using (parseLoop_nil_run resolver result false udpS r hp).1
  | succ n ih =>
    intro args hlen result udpS r hno hp
    cases args with
    | nil => simpa using (parseLoop_nil_run resolver result false udpS r hp).1
    | cons arg rest =>
      have hlen' : rest.length ≤ n := by
        simp only [List.length_cons] at hlen; omega
      have hnorest : ∀ a ∈ rest, isTcpArg a = false :=
        fun a ha => hno a (List.mem_cons_of_mem _ ha)
      rw [parseLoop.eq_def] at hp
      simp only [] at hp
      by_cases h1 : arg.isEmpty = true
      · rw [if_pos h1] at hp
        exact ih rest hlen' result udpS r hnorest hp
      rw [if_neg h1] at hp
      by_cases h2 : isHelpArg arg = true
      · rw [if_pos h2] at hp; cases hp
      rw [if_neg h2] at hp
      by_cases h3 : isVersionArg arg = true
      · rw [if_pos h3] at hp; cases hp
      rw [if_neg h3] at hp
      by_cases h4 : isVerboseArg arg = true
      · rw [if_pos h4] at hp
        simpa using ih rest hlen' { result with verbose := true } udpS r hnorest hp
      rw [if_neg h4] at hp
      by_cases h5 : isSilentArg arg = true
      · rw [if_pos h5] at hp
        simpa using ih rest hlen' { result with silent := true } udpS r hnorest hp
      rw [if_neg h5] at hp
      by_cases h6 : isTcpArg arg = true
      · exact absurd (hno arg (List.mem_cons_self _ _)) (by simp [h6])
      rw [if_neg h6] at hp
      by_cases h7 : isUdpArg arg = true
      · rw [if_pos h7] at hp
        cases rest with
        | nil => simp [parse_socket_arg] at hp
        | cons arg2 rest2 =>
          simp only [] at hp
          have hlen2 : rest2.length ≤ n := by
            simp only [List.length_cons] at hlen; omega
          have hnorest2 : ∀ a ∈ rest2, isTcpArg a = false :=
            fun a ha => hnorest a (List.mem_cons_of_mem _ ha)
          by_cases hs : isDisableSentinel arg2 = true
          · rw [if_pos hs] at hp
            exact ih rest2 hlen2 result true r hnorest2 hp
          rw [if_neg hs] at hp
          cases hps : parse_socket_arg resolver result.udp_addresses arg (some arg2)
              DEFAULT_PORT with
          | error e => rw [hps] at hp; cases hp
          | ok v =>
            rw [hps] at hp
            simpa using ih rest2 hlen2 { result with udp_addresses := v } true r
              hnorest2 hp
      rw [if_neg h7] at hp
      cases hp

/-- If the argument loop, started with `udp_specified = false`, succeeds in a
run request without ever seeing a `-u`/`--listen-udp` token, the final UDP
address list is the accumulated one with the two defaults appended. -/
theorem parseLoop_udp_inv (resolver : Resolver) :
    ∀ (n : Nat) (args : List String), args.length ≤ n →
      ∀ (result : StartupArguments) (tcpS : Bool) (r : StartupArguments),
        (∀ a ∈ args, isUdpArg a = false) →
        parseLoop resolver args result tcpS false
          = Except.ok (ArgumentsRequest.run r) →
        r.udp_addresses = result.udp_addresses ++ [defaultAddrV6, defaultAddrV4] := by
  intro n
  induction n with
  | zero =>
    intro args hlen result tcpS r _ hp
    have hargs : args = [] := List.eq_nil_of_length_eq_zero (Nat.le_zero.mp hlen)
    subst hargs
    simpa using (parseLoop_nil_run resolver result tcpS false r hp).2
  | succ n ih =>
    intro args hlen result tcpS r hno hp
    cases args with
    | nil => simpa using (parseLoop_nil_run resolver result tcpS false r hp).2
    | cons arg rest =>
      have hlen' : rest.length ≤ n := by
        simp only [List.length_cons] at hlen; omega
      have hnorest : ∀ a ∈ rest, isUdpArg a = false :=
        fun a ha => hno a (List.mem_cons_of_mem _ ha)
      rw [parseLoop.eq_def] at hp
      simp only [] at hp
      by_cases h1 : arg.isEmpty = true
      · rw [if_pos h1] at hp
        exact ih rest hlen' result tcpS r hnorest hp
      rw [if_neg h1] at hp
      by_cases h2 : isHelpArg arg = true
      · rw [if_pos h2] at hp; cases hp
      rw [if_neg h2] at hp
      by_cases h3 : isVersionArg arg = true
      · rw [if_pos h3] at hp; cases hp
      rw [if_neg h3] at hp
      by_cases h4 : isVerboseArg arg = true
      · rw [if_pos h4] at hp
        simpa using ih rest hlen' { result with verbose := true } tcpS r hnorest hp
      rw [if_neg h4] at hp
      by_cases h5 : isSilentArg arg = true
      · rw [if_pos h5] at hp
        simpa using ih rest hlen' { result with silent := true } tcpS r hnorest hp
      rw [if_neg h5] at hp
      by_cases h6 : isTcpArg arg = true
      · rw [if_pos h6] at hp
        cases rest with
        | nil => simp [parse_socket_arg] at hp
        | cons arg2 rest2 =>
          simp only [] at hp
          have hlen2 : rest2.length ≤ n := by
            simp only [List.length_cons] at hlen; omega
          have hnorest2 : ∀ a ∈ rest2, isUdpArg a = false :=
            fun a ha => hnorest a (List.mem_cons_of_mem _ ha)
          by_cases hs : isDisableSentinel arg2 = true
          · rw [if_pos hs] at hp
            exact ih rest2 hlen2 result true r hnorest2 hp
          rw [if_neg hs] at hp
          cases hps : parse_socket_arg resolver result.tcp_addresses arg (some arg2)
              DEFAULT_PORT with
          | error e => rw [hps] at hp; cases hp
          | ok v =>
            rw [hps] at hp
            simpa using ih rest2 hlen2 { result with tcp_addresses := v } true r
              hnorest2 hp
      rw [if_neg h6] at hp
      by_cases h7 : isUdpArg arg = true
      · exact absurd (hno arg (List.mem_cons_self _ _)) (by simp [h7])
      rw [if_neg h7] at hp
      cases hp

/-! ## Claim theorems -/

/-- Claim C1, counterexample: the trace with nine accept errors, then a
successful accept, then one more error.  The TCP loop exits on it although its
longest run of consecutive errors is 9 and a success intervenes before the
10th error — so a successful accept does not reset the error counter, and the
loop does not need 10 consecutive failures to close. -/
theorem tcp_no_reset_counterexample :
    (run_tcp_server
        (List.replicate 9 TcpEvent.err ++ [TcpEvent.ok "peer", TcpEvent.err])).2 = true
    ∧ maxErrRun
        (List.replicate 9 TcpEvent.err ++ [TcpEvent.ok "peer", TcpEvent.err]) = 9
    ∧ (run_tcp_server (List.replicate 9 TcpEvent.err ++ [TcpEvent.ok "peer"])).2
        = false := by
  refine ⟨rfl, rfl, rfl⟩

/-- Claim C1, amended: a successful accept does NOT reset the TCP loop's
error counter (only the UDP loop resets it); `run_tcp_server` exits exactly
when the cumulative number of accept failures since the loop started reaches
10, regardless of intervening successful accepts. -/
theorem tcp_loop_closes_iff_ten_total_errors (events : List TcpEvent) :
    (run_tcp_server events).2 = true ↔ 10 ≤ tcpErrCount events := by
  simpa [run_tcp_server] using runTcpLoop_closed_iff events 0 0 (by omega)

/-- Claim C1 witness: ten straight errors close the loop. -/
theorem tcp_loop_closes_iff_ten_total_errors_witness :
    (run_tcp_server (List.replicate 10 TcpEvent.err)).2 = true :=
  (tcp_loop_closes_iff_ten_total_errors (List.replicate 10 TcpEvent.err)).mpr
    (by decide)

/-- Claim C2, counterexample: after one receive error followed by one
successful receive, the reply's packet number is 2, not the number of
successful receives (1) — receive errors do advance the packet counter. -/
theorem udp_packet_number_counterexample :
    (run_udp_server [UdpEvent.err, UdpEvent.ok "peer" 4]).1
      = [⟨"peer", 4, 2⟩]
    ∧ (run_udp_server [UdpEvent.err, UdpEvent.ok "peer" 4]).1.map UdpReply.number
        ≠ [1] := by
  exact ⟨rfl, by decide⟩

/-- Claim C2, amended: the `packet_number` sent in each reply equals the
number of loop iterations (receive attempts) so far, i.e. the 1-based index
in the event trace of the successful receive it answers — receive errors
advance the packet counter exactly like successes do (while also incrementing
the error counter).  In particular, on a trace with no receive errors the N
replies are numbered 1..N in receipt order. -/
theorem udp_packet_numbers_count_iterations (events : List UdpEvent)
    (herr : udpErrCount events < 10) (hlen : events.length < 2 ^ 64) :
    (run_udp_server events).1.map UdpReply.number
        = (udpOkIndicesFrom events 0).map (· + 1)
    ∧ ((∀ ev ∈ events, ev ≠ UdpEvent.err) →
        (run_udp_server events).1.map UdpReply.number
          = List.range' 1 events.length) := by
  have hmain : (run_udp_server events).1.map UdpReply.number
      = (udpOkIndicesFrom events 0).map (· + 1) := by
    rw [run_udp_server, runUdpLoop_numbers events 0 0 (by omega)]
    refine List.map_congr_left fun i hi => ?_
    have hlt : i < 0 + events.length := udpOkIndicesFrom_lt events 0 i hi
    have h1 : 0 + i + 1 = i + 1 := by omega
    rw [h1, Nat.mod_eq_of_lt (by omega)]
  refine ⟨hmain, fun hne => ?_⟩
  rw [hmain, udpOkIndicesFrom_noerr events 0 hne,
    List.range'_eq_map_range, List.range'_eq_map_range, List.map_map]
  exact List.map_congr_left fun i _ => by simp only [Function.comp_apply]; omega

/-- Claim C2 witness: on the trace error, ok, ok — which contains a receive
error — the replies carry packet numbers 2 and 3, the 1-based iteration
indices of the successful receives. -/
theorem udp_packet_numbers_count_iterations_witness :
    (run_udp_server [UdpEvent.err, UdpEvent.ok "a" 3, UdpEvent.ok "b" 5]).1.map
        UdpReply.number
      = (udpOkIndicesFrom [UdpEvent.err, UdpEvent.ok "a" 3, UdpEvent.ok "b" 5] 0).map
          (· + 1) :=
  (udp_packet_numbers_count_iterations
    [UdpEvent.err, UdpEvent.ok "a" 3, UdpEvent.ok "b" 5] (by decide) (by norm_num)).1

/-- Claim C3, counterexample: after one failed accept, the first successful
accept is announced with connection number 2, not 1 — accept failures advance
the connection counter. -/
theorem tcp_connection_number_counterexample :
    (run_tcp_server [TcpEvent.err, TcpEvent.ok "peer"]).1 = [⟨"peer", 2⟩]
    ∧ (run_tcp_server [TcpEvent.err, TcpEvent.ok "peer"]).1.map TcpResponse.number
        ≠ [1] := by
  exact ⟨rfl, by decide⟩

/-- Claim C3, amended: the connection number sent on each accepted connection
equals the number of loop iterations so far (1-based index of the event in
the trace) — failed accepts also advance it.  Across the successful accepts
of one listener's trace the numbers are strictly increasing, and the first
successful accept gets number 1 exactly when no accept failure precedes it. -/
theorem tcp_connection_numbers_count_iterations (events : List TcpEvent)
    (herr : tcpErrCount events < 10) (hlen : events.length < 2 ^ 64) :
    (run_tcp_server events).1.map TcpResponse.number
        = (okIndicesFrom events 0).map (· + 1)
    ∧ List.Pairwise (· < ·)
        ((run_tcp_server events).1.map TcpResponse.number) := by
  have hmain : (run_tcp_server events).1.map TcpResponse.number
      = (okIndicesFrom events 0).map (· + 1) := by
    rw [run_tcp_server, runTcpLoop_numbers events 0 0 (by omega)]
    refine List.map_congr_left fun i hi => ?_
    have hlt : i < 0 + events.length := okIndicesFrom_lt events 0 i hi
    have h1 : 0 + i + 1 = i + 1 := by omega
    rw [h1, Nat.mod_eq_of_lt (by omega)]
  refine ⟨hmain, ?_⟩
  rw [hmain]
  exact List.Pairwise.map _ (fun a b h => by omega) (okIndicesFrom_pairwise events 0)

/-- Claim C3 witness: on the trace error, ok, ok the responses carry numbers
2 and 3 (the 1-based iteration indices), strictly increasing. -/
theorem tcp_connection_numbers_count_iterations_witness :
    (run_tcp_server [TcpEvent.err, TcpEvent.ok "a", TcpEvent.ok "b"]).1.map
        TcpResponse.number
      = (okIndicesFrom [TcpEvent.err, TcpEvent.ok "a", TcpEvent.ok "b"] 0).map (· + 1) :=
  (tcp_connection_numbers_count_iterations
    [TcpEvent.err, TcpEvent.ok "a", TcpEvent.ok "b"] (by decide) (by norm_num)).1

/-- Claim C4: on every accepted TCP connection the handler performs exactly
one write of the 256-byte buffer — whose prefix is the text
`you: {remote}:{port} | connection_number: {n}` and whose remaining bytes are
zero — followed by a write-side shutdown; it never reads from the client (the
handler's action list contains no read action at all). -/
theorem tcp_connection_single_write_then_shutdown (remote : String) (counter : Nat)
    (h : (strBytes (tcpResponseText remote counter)).length ≤ 256) :
    handleTcpConnection remote counter
      = [TcpAction.write (tcpResponseBuffer remote counter), TcpAction.shutdownWrite]
    ∧ (tcpResponseBuffer remote counter).length = 256
    ∧ tcpResponseBuffer remote counter
        = strBytes (tcpResponseText remote counter)
          ++ List.replicate (256 - (strBytes (tcpResponseText remote counter)).length) 0 := by
  refine ⟨rfl, ?_, ?_⟩
  · have hlen := cursorWrite_fst_length (List.replicate 256 0)
      (strBytes (tcpResponseText remote counter))
    rw [List.length_replicate] at hlen
    exact hlen
  · rw [tcpResponseBuffer,
      cursorWrite_of_fits _ _ (by rw [List.length_replicate]; exact h),
      List.drop_replicate]

/-- Claim C4 witness: the response to `1.2.3.4:5000` as connection 3 fits in
256 bytes and is laid out as text followed by zero padding. -/
theorem tcp_connection_single_write_then_shutdown_witness :
    (strBytes (tcpResponseText (sockAddrV4Display 1 2 3 4 5000) 3)).length ≤ 256
    ∧ tcpResponseBuffer (sockAddrV4Display 1 2 3 4 5000) 3
        = strBytes (tcpResponseText (sockAddrV4Display 1 2 3 4 5000) 3)
          ++ List.replicate
              (256 - (strBytes (tcpResponseText (sockAddrV4Display 1 2 3 4 5000) 3)).length) 0 :=
  ⟨by decide,
   (tcp_connection_single_write_then_shutdown (sockAddrV4Display 1 2 3 4 5000) 3
      (by decide)).2.2⟩

/-- Claim C5: every successfully received datagram is answered with exactly
one reply sent to its sender's address, reporting that sender and that byte
count; when the formatted text fits the 1400-byte buffer the payload is
exactly `you: {remote} | bytes: {n} | packet_number: {m}`.  In particular the
first datagram — 4 bytes (`"ping"`) from `203.0.113.5:40000` to an idle
socket — is answered with
`you: 203.0.113.5:40000 | bytes: 4 | packet_number: 1`. -/
theorem udp_reply_format (events : List UdpEvent)
    (herr : udpErrCount events < 10) :
    (run_udp_server events).1.map (fun rep => (rep.remote, rep.bytes))
        = okDatagrams events
    ∧ (∀ remote bufLen counter,
        (strBytes (udpResponseText remote bufLen counter)).length ≤ UDP_BUF_SIZE →
          udpReplyPayload remote bufLen counter
            = strBytes (udpResponseText remote bufLen counter))
    ∧ (run_udp_server [UdpEvent.ok (sockAddrV4Display 203 0 113 5 40000) 4]).1
        = [⟨"203.0.113.5:40000", 4, 1⟩]
    ∧ udpReplyPayload (sockAddrV4Display 203 0 113 5 40000) 4 1
        = strBytes "you: 203.0.113.5:40000 | bytes: 4 | packet_number: 1" := by
  refine ⟨runUdpLoop_replies events 0 0 (by omega), ?_, rfl, rfl⟩
  intro remote bufLen counter h
  rw [udpReplyPayload, List.take_of_length_le h]

/-- Claim C5 witness: the `"ping"` example, through the theorem itself. -/
theorem udp_reply_format_witness :
    (run_udp_server [UdpEvent.ok (sockAddrV4Display 203 0 113 5 40000) 4]).1
      = [⟨"203.0.113.5:40000", 4, 1⟩] :=
  (udp_reply_format [UdpEvent.ok (sockAddrV4Display 203 0 113 5 40000) 4]
    (by decide)).2.2.1

/-- Claim C6: `run_server` aborts the process (exit 1) precisely when no TCP
listener and no UDP socket could be bound; as soon as one socket of either
protocol is bound it keeps running, reporting per-protocol warnings when a
protocol had configured addresses but bound none. -/
theorem run_server_abort_iff_nothing_bound (okTcp okUdp : SockAddr → Bool)
    (args : StartupArguments) :
    (run_server okTcp okUdp args = ServerStart.abort ↔
      bindSockets okTcp args.tcp_addresses = []
        ∧ bindSockets okUdp args.udp_addresses = [])
    ∧ (bindSockets okTcp args.tcp_addresses ≠ []
        ∨ bindSockets okUdp args.udp_addresses ≠ [] →
        run_server okTcp okUdp args
          = ServerStart.running
              (!args.tcp_addresses.isEmpty
                && (bindSockets okTcp args.tcp_addresses).isEmpty)
              (!args.udp_addresses.isEmpty
                && (bindSockets okUdp args.udp_addresses).isEmpty)
              (bindSockets okTcp args.tcp_addresses)
              (bindSockets okUdp args.udp_addresses)) := by
  simp only [run_server]
  rcases hT : bindSockets okTcp args.tcp_addresses with _ | ⟨a, as⟩ <;>
    rcases hU : bindSockets okUdp args.udp_addresses with _ | ⟨b, bs⟩ <;>
      simp

/-- Claim C6 witness: with both bind predicates failing everywhere and one
configured TCP address, `run_server` aborts. -/
theorem run_server_abort_iff_nothing_bound_witness :
    run_server (fun _ => false) (fun _ => false)
        ⟨false, false, [defaultAddrV4], [defaultAddrV6]⟩ = ServerStart.abort :=
  (run_server_abort_iff_nothing_bound (fun _ => false) (fun _ => false)
      ⟨false, false, [defaultAddrV4], [defaultAddrV6]⟩).1.mpr ⟨rfl, rfl⟩

/-- Claim C7: on any command line whose arguments (after the program name)
never contain a protocol's listen option token, a successful parse gives that
protocol exactly the two defaults: the unspecified IPv6 address and the
unspecified IPv4 address, both on port 6969. -/
theorem parse_defaults_when_unspecified (resolver : Resolver) (argv : List String)
    (r : StartupArguments)
    (hr : parse_arguments resolver argv = Except.ok (ArgumentsRequest.run r)) :
    ((∀ a ∈ argv.drop 1, isTcpArg a = false) →
        r.tcp_addresses = [defaultAddrV6, defaultAddrV4])
    ∧ ((∀ a ∈ argv.drop 1, isUdpArg a = false) →
        r.udp_addresses = [defaultAddrV6, defaultAddrV4]) := by
  constructor
  · intro hno
    simpa [StartupArguments.empty] using
      parseLoop_tcp_inv resolver (argv.drop 1).length (argv.drop 1) le_rfl
        StartupArguments.empty false r hno hr
  · intro hno
    simpa [StartupArguments.empty] using
      parseLoop_udp_inv resolver (argv.drop 1).length (argv.drop 1) le_rfl
        StartupArguments.empty false r hno hr

/-- Claim C7 witness: with no options at all, both protocols get exactly the
two default addresses. -/
theorem parse_defaults_when_unspecified_witness :
    (StartupArguments.mk false false [defaultAddrV6, defaultAddrV4]
        [defaultAddrV6, defaultAddrV4]).tcp_addresses
      = [defaultAddrV6, defaultAddrV4] :=
  (parse_defaults_when_unspecified (fun _ => ResolveResult.otherError)
      ["whereyoufrom"] _ rfl).1 (by simp)

/-- Claim C8: the bounded cursor write is total and safe for every remote
address, byte count and counter: the buffer keeps its exact capacity, the
final position is `min (data length) capacity` — i.e. writing stops silently
at capacity, which is not an error (both response builders discard the write
result) — the bytes written are the data truncated at capacity, the TCP
buffer is always exactly 256 bytes, and the UDP payload never exceeds 1400
bytes. -/
theorem bounded_write_safety (buf data : List Nat) (remote : String)
    (bufLen counter : Nat) :
    (cursorWrite buf data).1.length = buf.length
    ∧ (cursorWrite buf data).2 = min data.length buf.length
    ∧ (cursorWrite buf data).2 ≤ buf.length
    ∧ (cursorWrite buf data).1.take (min data.length buf.length)
        = data.take buf.length
    ∧ (tcpResponseBuffer remote counter).length = 256
    ∧ (udpReplyPayload remote bufLen counter).length ≤ UDP_BUF_SIZE := by
  refine ⟨cursorWrite_fst_length buf data, rfl, ?_, cursorWrite_prefix buf data,
    ?_, ?_⟩
  · exact Nat.min_le_right _ _
  · have hlen := cursorWrite_fst_length (List.replicate 256 0)
      (strBytes (tcpResponseText remote counter))
    rw [List.length_replicate] at hlen
    exact hlen
  · rw [udpReplyPayload, List.length_take]
    exact Nat.min_le_left _ _

/-- Claim C8 witness: writing 5 bytes into a 3-byte buffer truncates at
capacity without error. -/
theorem bounded_write_safety_witness :
    (cursorWrite [0, 0, 0] [7, 8, 9, 10, 11]).2 = min 5 3 :=
  (bounded_write_safety [0, 0, 0] [7, 8, 9, 10, 11] "x" 0 0).2.1

/-- Claim C9: the UDP reply datagram consists of exactly the bytes written —
its length is the cursor position after formatting, never more than 1400 —
and when the text fits it equals the formatted text with no zero padding,
unlike the TCP response which is always the full 256-byte buffer. -/
theorem udp_datagram_exact_length (remote : String) (bufLen counter : Nat)
    (h : (strBytes (udpResponseText remote bufLen counter)).length ≤ UDP_BUF_SIZE) :
    udpReplyPayload remote bufLen counter
        = strBytes (udpResponseText remote bufLen counter)
    ∧ (udpReplyPayload remote bufLen counter).length
        = (cursorWrite (List.replicate UDP_BUF_SIZE 0)
            (strBytes (udpResponseText remote bufLen counter))).2
    ∧ (∀ remote2 bufLen2 counter2,
        (udpReplyPayload remote2 bufLen2 counter2).length ≤ UDP_BUF_SIZE)
    ∧ (tcpResponseBuffer remote counter).length = 256 := by
  have hp : udpReplyPayload remote bufLen counter
      = strBytes (udpResponseText remote bufLen counter) := by
    rw [udpReplyPayload, List.take_of_length_le h]
  refine ⟨hp, ?_, ?_, ?_⟩
  · have h2 : (cursorWrite (List.replicate UDP_BUF_SIZE 0)
        (strBytes (udpResponseText remote bufLen counter))).2
      = min (strBytes (udpResponseText remote bufLen counter)).length
          (List.replicate UDP_BUF_SIZE 0).length := rfl
    rw [udpReplyPayload, List.length_take, h2, List.length_replicate, Nat.min_comm]
  · intro remote2 bufLen2 counter2
    rw [udpReplyPayload, List.length_take]
    exact Nat.min_le_left _ _
  · have hlen := cursorWrite_fst_length (List.replicate 256 0)
      (strBytes (tcpResponseText remote counter))
    rw [List.length_replicate] at hlen
    exact hlen

/-- Claim C9 witness: a short reply's payload is exactly its text. -/
theorem udp_datagram_exact_length_witness :
    (strBytes (udpResponseText "9.9.9.9:53" 12 3)).length ≤ UDP_BUF_SIZE
    ∧ udpReplyPayload "9.9.9.9:53" 12 3
        = strBytes (udpResponseText "9.9.9.9:53" 12 3) :=
  ⟨by decide, (udp_datagram_exact_length "9.9.9.9:53" 12 3 (by decide)).1⟩

/-- Claim C10: an option argument equal to `-` after trimming marks the
protocol as specified without touching its accumulated address list (so
addresses from an earlier `-t`/`-u` survive); in particular
`-t 1.2.3.4 -t -` ends with the TCP list still containing `1.2.3.4:6969`. -/
theorem disable_sentinel_keeps_addresses (resolver : Resolver)
    (st : StartupArguments) (tcpS udpS : Bool) (w : String) (rest : List String)
    (hw : strTrim w = "-") :
    parseLoop resolver ("-t" :: w :: rest) st tcpS udpS
        = parseLoop resolver rest st true udpS
    ∧ parseLoop resolver ("-u" :: w :: rest) st tcpS udpS
        = parseLoop resolver rest st tcpS true
    ∧ parse_arguments exampleResolver ["whereyoufrom", "-t", "1.2.3.4", "-t", "-"]
        = Except.ok (ArgumentsRequest.run
            ⟨false, false, [SockAddr.v4 1 2 3 4 6969],
              [defaultAddrV6, defaultAddrV4]⟩)
    ∧ SockAddr.v4 1 2 3 4 6969
        ∈ [SockAddr.v4 1 2 3 4 6969, defaultAddrV6, defaultAddrV4] := by
  have hsent : isDisableSentinel w = true := by
    simp [isDisableSentinel, hw]
  refine ⟨?_, ?_, by rfl, by simp⟩
  · rw [parseLoop.eq_def]
    simp only [show ("-t" : String).isEmpty = false from rfl,
      show isHelpArg "-t" = false from rfl, show isVersionArg "-t" = false from rfl,
      show isVerboseArg "-t" = false from rfl, show isSilentArg "-t" = false from rfl,
      show isTcpArg "-t" = true from rfl, hsent, Bool.false_eq_true, if_false,
      if_true, ite_true, ite_false]
  · rw [parseLoop.eq_def]
    simp only [show ("-u" : String).isEmpty = false from rfl,
      show isHelpArg "-u" = false from rfl, show isVersionArg "-u" = false from rfl,
      show isVerboseArg "-u" = false from rfl, show isSilentArg "-u" = false from rfl,
      show isTcpArg "-u" = false from rfl, show isUdpArg "-u" = true from rfl,
      hsent, Bool.false_eq_true, if_false, if_true, ite_true, ite_false]

/-- Claim C10 witness: the sentinel step applied with `w = "-"` on an empty
tail. -/
theorem disable_sentinel_keeps_addresses_witness :
    parseLoop exampleResolver ["-t", "-"] StartupArguments.empty false false
      = parseLoop exampleResolver [] StartupArguments.empty true false :=
  (disable_sentinel_keeps_addresses exampleResolver StartupArguments.empty
      false false "-" [] (by decide)).1

end WhereYouFrom
